import Mathlib

/-!
Shallow embedding of the ai-doctor backend (Express server in
src/unnamed/part_000): the triage lookup `generateDummyAIResponse`, the
image intake `saveImage`, the `POST /api/chat` handler and the
`POST /api/generate-pdf` handler, together with theorems settling the
frozen claims about them.

JavaScript strings are modelled as `List Char` (`Str`); the uploads
directory is modelled as the list of root-relative paths of the files it
holds; the Postgres `sessions` table as a list of rows.  Nondeterministic
inputs of a request (the generated UUIDs and `Date.now()`) are passed as
explicit parameters.
-/

/-- JavaScript strings, modelled as lists of characters. -/
abbrev Str := List Char

/-- Turn a Lean string literal into the `Str` model. -/
def str (s : String) : Str := s.toList

/-- JS `String.prototype.toLowerCase` (the keywords involved are ASCII,
where `Char.toLower` agrees with JS). -/
def lowerStr (s : Str) : Str := s.map Char.toLower

/-- `hasPfx hay needle`: `hay` starts with `needle`. -/
def hasPfx : Str → Str → Bool
  | _, [] => true
  | [], _ :: _ => false
  | c :: cs, p :: ps => c == p && hasPfx cs ps

/-- JS `hay.includes(needle)`: `needle` occurs contiguously in `hay`. -/
def jsIncludes : Str → Str → Bool
  | [], needle => needle.isEmpty
  | c :: t, needle => hasPfx (c :: t) needle || jsIncludes t needle

/-- The triage outcome tuple returned by `generateDummyAIResponse`
(and echoed in rows and responses). -/
structure AIResponse where
  possibleCauses : Str
  riskLevel : Str
  selfCareTips : Str
  doctorAdvice : Str
deriving DecidableEq

/-- The initial assignments in `generateDummyAIResponse`: the tuple kept
when no keyword matches. -/
def defaultResponse : AIResponse :=
  AIResponse.mk (str "Unknown") (str "Moderate")
    (str "Rest and drink plenty of fluids.")
    (str "Consult a doctor if symptoms worsen.")

/-- The tuple assigned when the lowered text contains "fever". -/
def feverResponse : AIResponse :=
  AIResponse.mk (str "Common cold, Influenza, COVID-19") (str "Mild to Moderate")
    (str "Take paracetamol, rest and stay hydrated.")
    (str "Seek medical advice if fever persists beyond 3 days.")

/-- The tuple assigned when the lowered text contains "headache" (and not
"fever"). -/
def headacheResponse : AIResponse :=
  AIResponse.mk (str "Tension headache, Migraine") (str "Mild")
    (str "Rest in a quiet, dark room; avoid stress.")
    (str "See a doctor if headaches are severe or recurrent.")

/-- The tuple assigned when the lowered text contains "chest pain" (and
neither "fever" nor "headache"). -/
def chestPainResponse : AIResponse :=
  AIResponse.mk (str "Angina, Heart attack, Acid reflux") (str "High")
    (str "Seek emergency care immediately.")
    (str "Call emergency services or visit the nearest hospital.")

/-- `generateDummyAIResponse` from part_000 lines 43-68: lowercase the
text, then the `if / else if` keyword chain (fever, headache, chest pain)
with the default tuple kept when nothing matches.  The source mutates four
local variables and returns them as one object; the chain of assignments is
rendered as the equivalent chain of conditionals returning whole tuples. -/
def generateDummyAIResponse (symptomsText : Str) : AIResponse :=
  let lower := lowerStr symptomsText
  if jsIncludes lower (str "fever") then feverResponse
  else if jsIncludes lower (str "headache") then headacheResponse
  else if jsIncludes lower (str "chest pain") then chestPainResponse
  else defaultResponse

/-- C1: the triage lookup works on the lowercased text in the fixed order
fever, headache, chest pain, first match wins: text containing "fever"
gets the fever tuple regardless of the other keywords; text containing
"headache" but not "fever" gets the headache tuple regardless of
"chest pain"; text containing "chest pain" but neither other keyword gets
the chest-pain tuple. -/
theorem triage_priority_order (s : Str) :
    (jsIncludes (lowerStr s) (str "fever") = true →
      generateDummyAIResponse s = feverResponse)
    ∧ (jsIncludes (lowerStr s) (str "fever") = false →
      jsIncludes (lowerStr s) (str "headache") = true →
      generateDummyAIResponse s = headacheResponse)
    ∧ (jsIncludes (lowerStr s) (str "fever") = false →
      jsIncludes (lowerStr s) (str "headache") = false →
      jsIncludes (lowerStr s) (str "chest pain") = true →
      generateDummyAIResponse s = chestPainResponse) := by
  refine ⟨fun h1 => ?_, fun h1 h2 => ?_, fun h1 h2 h3 => ?_⟩
  · simp [generateDummyAIResponse, h1]
  · simp [generateDummyAIResponse, h1, h2]
  · simp [generateDummyAIResponse, h1, h2, h3]

/-- Witness for C1 at concrete inputs: a text with all three keywords (in
mixed case) gets the fever tuple, and one with headache and chest pain but
no fever gets the headache tuple. -/
theorem triage_priority_order_witness :
    generateDummyAIResponse (str "FeVer, headache and chest pain") = feverResponse
    ∧ generateDummyAIResponse (str "headache and chest pain") = headacheResponse
    ∧ generateDummyAIResponse (str "chest pain only") = chestPainResponse :=
  ⟨(triage_priority_order _).1 (by decide),
   (triage_priority_order _).2.1 (by decide) (by decide),
   (triage_priority_order _).2.2 (by decide) (by decide) (by decide)⟩

/-- C2: text containing none of the three keywords (after lowering) gets
exactly the default tuple: Unknown causes, Moderate risk, the generic
rest-and-fluids tip and the generic consult-a-doctor advice. -/
theorem triage_default_tuple (s : Str)
    (h1 : jsIncludes (lowerStr s) (str "fever") = false)
    (h2 : jsIncludes (lowerStr s) (str "headache") = false)
    (h3 : jsIncludes (lowerStr s) (str "chest pain") = false) :
    generateDummyAIResponse s =
      AIResponse.mk (str "Unknown") (str "Moderate")
        (str "Rest and drink plenty of fluids.")
        (str "Consult a doctor if symptoms worsen.") := by
  simp [generateDummyAIResponse, h1, h2, h3, defaultResponse]

/-- Witness for C2 at a concrete keyword-free input. -/
theorem triage_default_tuple_witness :
    generateDummyAIResponse (str "I feel dizzy and tired") =
      AIResponse.mk (str "Unknown") (str "Moderate")
        (str "Rest and drink plenty of fluids.")
        (str "Consult a doctor if symptoms worsen.") :=
  triage_default_tuple _ (by decide) (by decide) (by decide)

/-- JS regex `\w`: ASCII letters, digits and underscore. -/
def isWordChar (c : Char) : Bool :=
  ('a' ≤ c && c ≤ 'z') || ('A' ≤ c && c ≤ 'Z') || ('0' ≤ c && c ≤ '9') || c == '_'

/-- JS line terminators, the characters `.` does not match. -/
def isLineTerminator (c : Char) : Bool :=
  c == Char.ofNat 10 || c == Char.ofNat 13 || c == Char.ofNat 0x2028 || c == Char.ofNat 0x2029

/-- Drop `pre` from the front of `s`, or fail if `s` does not start with
`pre`. -/
def dropPfx : Str → Str → Option Str
  | [], s => some s
  | _ :: _, [] => none
  | p :: ps, c :: cs => if c = p then dropPfx ps cs else none

/-- The regex match `base64Image.match(/^data:(image\/\w+);base64,(.+)$/)`
of `saveImage` (part_000 line 73), returning the MIME subtype (the `\w+`
run of group 1, which is what `matches[1].split('/')[1]` extracts) and the
base64 payload (group 2).  Greedy `\w+` cannot backtrack usefully here
because `;` is not a word character, so taking the maximal word-character
run is equivalent; `.` excludes line terminators and `$` (no `m` flag)
anchors at the end of the string, so group 2 is any nonempty
line-terminator-free suffix. -/
def matchImageDataUri (s : Str) : Option (Str × Str) :=
  match dropPfx (str "data:image/") s with
  | none => none
  | some r1 =>
    if r1.takeWhile isWordChar = [] then none
    else
      match dropPfx (str ";base64,") (r1.dropWhile isWordChar) with
      | none => none
      | some payload =>
        if payload = [] then none
        else if payload.any isLineTerminator then none
        else some (r1.takeWhile isWordChar, payload)

/-- `saveImage` from part_000 lines 71-81, with its filesystem effect made
explicit: `files` is the list of root-relative paths stored in the uploads
directory, and `uuid` the value produced by `uuidv4()`.  A falsy argument
(`undefined` / empty string) returns `null` without touching the
filesystem; a truthy argument that fails the regex throws
`'Invalid base64 image format'`; otherwise the decoded file is written as
`<uuid>.<ext>` (with `ext` the MIME subtype) and `/uploads/<uuid>.<ext>`
is returned. -/
def saveImageFS (uuid : Str) (base64Image : Option Str) (files : List Str) :
    Except Str (Option Str × List Str) :=
  match base64Image with
  | none => Except.ok (none, files)
  | some s =>
    if s = [] then Except.ok (none, files)
    else
      match matchImageDataUri s with
      | none => Except.error (str "Invalid base64 image format")
      | some (ext, _payload) =>
        let filename := str "/uploads/" ++ uuid ++ str "." ++ ext
        Except.ok (some filename, filename :: files)

/-- One row of the `sessions` table (part_000 lines 24-35, inserted at
lines 93-97). -/
structure Session where
  id : Str
  symptomsText : Str
  imagePath : Option Str
  possibleCauses : Str
  riskLevel : Str
  selfCareTips : Str
  doctorAdvice : Str
  timestamp : Nat
deriving DecidableEq

/-- The mutable server state the handlers touch: the `sessions` table and
the uploads directory (as the list of root-relative paths of its files). -/
structure ServerState where
  sessions : List Session
  files : List Str
deriving DecidableEq

/-- The JSON body of a `POST /api/chat` request; each field may be absent. -/
structure ChatRequest where
  symptomsText : Option Str
  base64Image : Option Str
deriving DecidableEq

/-- The response of the chat endpoint: `400` with an error message, `500`
with an error message, or the `200` JSON body of line 99. -/
inductive ChatResponse where
  | badRequest (error : Str)
  | serverError (error : Str)
  | ok (sessionId : Str) (symptomsText : Str) (imageUrl : Option Str)
      (aiResponse : AIResponse) (timestamp : Nat)
deriving DecidableEq

/-- The HTTP status code carried by a `ChatResponse`. -/
def chatStatus : ChatResponse → Nat
  | ChatResponse.badRequest _ => 400
  | ChatResponse.serverError _ => 500
  | ChatResponse.ok _ _ _ _ _ => 200

/-- JS truthiness test `!x` for an optional string: `undefined` and the
empty string are falsy. -/
def jsFalsy : Option Str → Bool
  | none => true
  | some s => s.isEmpty

/-- The `POST /api/chat` handler (part_000 lines 84-104).  `imgUuid` and
`sessUuid` are the two `uuidv4()` draws (image filename and session id)
and `now` is `Date.now()`.  Order as in the source: the truthiness check
on `symptomsText` (400), then `saveImage` (whose exception is caught by
the surrounding `try` and answered with a 500 without any state change),
then the triage lookup, then the single `INSERT`, then the 200 body. -/
def postChat (imgUuid sessUuid : Str) (now : Nat) (req : ChatRequest)
    (st : ServerState) : ChatResponse × ServerState :=
  if jsFalsy req.symptomsText then
    (ChatResponse.badRequest (str "symptomsText is required"), st)
  else
    let text := req.symptomsText.getD []
    match saveImageFS imgUuid req.base64Image st.files with
    | Except.error _ => (ChatResponse.serverError (str "Internal server error"), st)
    | Except.ok (imagePath, files') =>
      let ai := generateDummyAIResponse text
      (ChatResponse.ok sessUuid text imagePath ai now,
       ServerState.mk
         (st.sessions ++
           [Session.mk sessUuid text imagePath ai.possibleCauses ai.riskLevel
             ai.selfCareTips ai.doctorAdvice now])
         files')

/-- The replace `imageUrl.replace(/^(http:\/\/[^\/]+)?/, '')` of part_000
line 139: strip an optional leading `http://<host>` (host = one or more
non-slash characters); anything else is left unchanged.  The remainder is
the path `path.join(__dirname, ...)` resolves inside the server directory,
compared here against the uploads file list directly. -/
def stripHttpHost (u : Str) : Str :=
  match dropPfx (str "http://") u with
  | none => u
  | some rest =>
    if rest.takeWhile (fun c => c != '/') = [] then u
    else rest.dropWhile (fun c => c != '/')

/-- One drawing operation recorded while assembling the PDF document,
mirroring the `doc.…` calls of the handler. -/
inductive PdfItem where
  | title (content : Str)
  | dateLine (usedTimestamp : Option Nat)
  | heading (content : Str)
  | text (content : Str)
  | advList (items : List Str)
  | pageBreak
  | image (localPath : Str)
deriving DecidableEq

/-- JS truthiness of the optional `timestamp` field: `undefined` and `0`
are falsy (then `new Date().toLocaleString()` — "now" — is used). -/
def jsTruthyNat : Option Nat → Bool
  | none => false
  | some n => n != 0

/-- The image section of the report (part_000 lines 137-149): skipped for
a falsy `imageUrl`; a page with the embedded image when the resolved local
path exists in the uploads directory; the text placeholder
`'Symptom image not found.'` otherwise. -/
def imageSection (imageUrl : Option Str) (files : List Str) : List PdfItem :=
  match imageUrl with
  | none => []
  | some u =>
    if u = [] then []
    else
      let localPath := stripHttpHost u
      if files.contains localPath then
        [PdfItem.pageBreak, PdfItem.heading (str "Symptom Image:"),
         PdfItem.image localPath]
      else [PdfItem.text (str "Symptom image not found.")]

/-- The document assembled by `POST /api/generate-pdf` (part_000 lines
110-151): title, date line (given timestamp, or "now" when falsy), the
symptom text, the bulleted four advice fields, then the image section. -/
def buildPdfDoc (symptomsText : Str) (ai : AIResponse) (imageUrl : Option Str)
    (timestamp : Option Nat) (files : List Str) : List PdfItem :=
  [PdfItem.title (str "AI-Doctor Health Report"),
   PdfItem.dateLine (if jsTruthyNat timestamp then timestamp else none),
   PdfItem.heading (str "Symptoms:"),
   PdfItem.text symptomsText,
   PdfItem.heading (str "AI-Doctor Response:"),
   PdfItem.advList
     [str "Possible Causes: " ++ ai.possibleCauses,
      str "Risk Level: " ++ ai.riskLevel,
      str "Self-Care Tips: " ++ ai.selfCareTips,
      str "Doctor Advice: " ++ ai.doctorAdvice]]
  ++ imageSection imageUrl files

/-- The JSON body of a `POST /api/generate-pdf` request with the two
required fields present and well-typed (the caller echoes back prior
response data per the contract); image URL and timestamp stay optional. -/
structure PdfRequest where
  symptomsText : Str
  aiResponse : AIResponse
  imageUrl : Option Str
  timestamp : Option Nat
deriving DecidableEq

/-- The response of the PDF endpoint: the `200` attachment with the
assembled document, or the catch-all `500`. -/
inductive PdfResponse where
  | ok (doc : List PdfItem)
  | serverError (error : Str)
deriving DecidableEq

/-- The HTTP status code carried by a `PdfResponse`. -/
def pdfStatus : PdfResponse → Nat
  | PdfResponse.ok _ => 200
  | PdfResponse.serverError _ => 500

/-- The `POST /api/generate-pdf` handler (part_000 lines 107-156) on a
well-typed body: document assembly cannot throw, so the response is the
200 attachment built by `buildPdfDoc`; it reads the uploads directory and
changes no state. -/
def postGeneratePdf (req : PdfRequest) (files : List Str) : PdfResponse :=
  PdfResponse.ok
    (buildPdfDoc req.symptomsText req.aiResponse req.imageUrl req.timestamp files)

/-- A request to either mutating endpoint, with its nondeterministic
inputs (UUID draws, clock) attached. -/
inductive Request where
  | chat (imgUuid sessUuid : Str) (now : Nat) (r : ChatRequest)
  | pdf (r : PdfRequest)

/-- The response to a `Request`. -/
inductive Response where
  | chat (r : ChatResponse)
  | pdf (r : PdfResponse)

/-- Dispatch one request against the server state: `/api/chat` may mutate
the state, `/api/generate-pdf` only reads the uploads directory. -/
def handle : Request → ServerState → Response × ServerState
  | Request.chat imgUuid sessUuid now r, st =>
    (Response.chat (postChat imgUuid sessUuid now r st).1,
     (postChat imgUuid sessUuid now r st).2)
  | Request.pdf r, st => (Response.pdf (postGeneratePdf r st.files), st)

/-- A session row whose four advice fields are exactly the tuple one
triage-lookup call on its own symptom text produces. -/
def adviceConsistent (s : Session) : Bool :=
  decide (generateDummyAIResponse s.symptomsText =
    AIResponse.mk s.possibleCauses s.riskLevel s.selfCareTips s.doctorAdvice)

/-- `dropPfx p s` succeeds with remainder `r` exactly when `s = p ++ r`. -/
theorem dropPfx_eq_some : ∀ (p s r : Str), dropPfx p s = some r ↔ s = p ++ r := by
  intro p
  induction p with
  | nil => intro s r; simp [dropPfx]
  | cons a ps ih =>
    intro s r
    cases s with
    | nil => simp [dropPfx]
    | cons c cs =>
      by_cases h : c = a
      · subst h; simp [dropPfx, ih]
      · simp [dropPfx, h]

/-- `dropPfx` undoes a concatenation on the left. -/
theorem dropPfx_append (p r : Str) : dropPfx p (p ++ r) = some r :=
  (dropPfx_eq_some p (p ++ r) r).mpr rfl

/-- Every character kept by `takeWhile` satisfies the predicate. -/
theorem all_takeWhile (q : Char → Bool) : ∀ l : Str, (l.takeWhile q).all q = true := by
  intro l
  induction l with
  | nil => rfl
  | cons x xs ih =>
    cases h : q x with
    | false => simp [List.takeWhile_cons, h]
    | true => simp [List.takeWhile_cons, h, ih]

/-- `takeWhile` and `dropWhile` split a list of satisfying characters
followed by a failing character exactly at that character. -/
theorem takeWhile_split (q : Char → Bool) :
    ∀ (a : Str) (c : Char) (b : Str), (∀ x ∈ a, q x = true) → q c = false →
    (a ++ c :: b).takeWhile q = a ∧ (a ++ c :: b).dropWhile q = c :: b := by
  intro a
  induction a with
  | nil => intro c b _ hc; simp [List.takeWhile_cons, List.dropWhile_cons, hc]
  | cons x xs ih =>
    intro c b ha hc
    have hx : q x = true := ha x (by simp)
    obtain ⟨h1, h2⟩ := ih c b (fun y hy => ha y (by simp [hy])) hc
    simp [List.takeWhile_cons, List.dropWhile_cons, hx, h1, h2]

/-- Full characterization of the `saveImage` regex: it accepts exactly the
strings `data:image/<ext>;base64,<payload>` with `<ext>` a nonempty run of
word characters and `<payload>` nonempty and free of line terminators, and
it returns that `<ext>` and `<payload>`. -/
theorem matchImageDataUri_iff (s ext payload : Str) :
    matchImageDataUri s = some (ext, payload) ↔
      (s = str "data:image/" ++ ext ++ str ";base64," ++ payload
        ∧ ext ≠ [] ∧ ext.all isWordChar = true
        ∧ payload ≠ [] ∧ payload.any isLineTerminator = false) := by
  constructor
  · intro h
    unfold matchImageDataUri at h
    split at h
    · exact absurd h (by simp)
    next r1 h1 =>
      split at h
      · exact absurd h (by simp)
      next hne =>
        split at h
        · exact absurd h (by simp)
        next payload0 h2 =>
          split at h
          · exact absurd h (by simp)
          next hp =>
            split at h
            next hterm => exact absurd h (by simp)
            next hterm =>
              obtain ⟨hext, hpay⟩ : r1.takeWhile isWordChar = ext ∧ payload0 = payload := by
                simpa using h
              have hs : s = str "data:image/" ++ r1 := (dropPfx_eq_some _ s r1).mp h1
              have hr2 : r1.dropWhile isWordChar = str ";base64," ++ payload0 :=
                (dropPfx_eq_some _ _ _).mp h2
              refine ⟨?_, ?_, ?_, ?_, ?_⟩
              · rw [hs, ← List.takeWhile_append_dropWhile isWordChar r1, hr2, hext, hpay]
                simp [List.append_assoc]
              · rw [← hext]; exact hne
              · rw [← hext]; exact all_takeWhile isWordChar r1
              · rw [← hpay]; exact hp
              · rw [← hpay]; exact Bool.eq_false_iff.mpr hterm
  · rintro ⟨hs, hne, hall, hpne, hterm⟩
    have hmid : str ";base64," ++ payload = ';' :: (str "base64," ++ payload) := rfl
    have hsplit :
        (ext ++ (';' :: (str "base64," ++ payload))).takeWhile isWordChar = ext
        ∧ (ext ++ (';' :: (str "base64," ++ payload))).dropWhile isWordChar =
          ';' :: (str "base64," ++ payload) :=
      takeWhile_split isWordChar ext ';' (str "base64," ++ payload)
        (fun x hx => List.all_eq_true.mp hall x hx) (by decide)
    have hs' : s = str "data:image/" ++ (ext ++ (';' :: (str "base64," ++ payload))) := by
      rw [hs, ← hmid]; simp [List.append_assoc]
    unfold matchImageDataUri
    rw [hs', dropPfx_append]
    dsimp only
    rw [hsplit.1, hsplit.2, ← hmid, dropPfx_append]
    dsimp only
    simp [hne, hpne, hterm]

/-- C3: a present (truthy) but malformed `base64Image` makes the whole
request fail — whatever the rest of the body — and leaves the server
state unchanged: no session row is inserted and no file is written. -/
theorem chat_malformed_image_no_persist (imgUuid sessUuid : Str) (now : Nat)
    (req : ChatRequest) (st : ServerState) (s : Str)
    (himg : req.base64Image = some s) (hs : s ≠ [])
    (hmal : matchImageDataUri s = none) :
    chatStatus (postChat imgUuid sessUuid now req st).1 ≠ 200
    ∧ (postChat imgUuid sessUuid now req st).2 = st := by
  by_cases hf : jsFalsy req.symptomsText
  · simp [postChat, hf, chatStatus]
  · simp [postChat, hf, saveImageFS, himg, hs, hmal, chatStatus]

/-- Witness for C3: a request with text "cough" and image "garbage" is not
answered 200 and leaves the empty state empty. -/
theorem chat_malformed_image_no_persist_witness :
    chatStatus (postChat (str "u1") (str "u2") 5
      (ChatRequest.mk (some (str "cough")) (some (str "garbage")))
      (ServerState.mk [] [])).1 ≠ 200
    ∧ (postChat (str "u1") (str "u2") 5
      (ChatRequest.mk (some (str "cough")) (some (str "garbage")))
      (ServerState.mk [] [])).2 = ServerState.mk [] [] :=
  chat_malformed_image_no_persist (str "u1") (str "u2") 5
    (ChatRequest.mk (some (str "cough")) (some (str "garbage")))
    (ServerState.mk [] []) (str "garbage") rfl (by decide) (by decide)

/-- C4 as stated is false: a malformed image payload is a validation
error, yet the handler answers it with status 500, not a 4xx — the
`saveImage` exception falls into the generic `catch`. -/
theorem chat_validation_status_counterexample :
    chatStatus (postChat (str "u1") (str "u2") 0
      (ChatRequest.mk (some (str "cough")) (some (str "notadatauri")))
      (ServerState.mk [] [])).1 = 500
    ∧ ¬(400 ≤ chatStatus (postChat (str "u1") (str "u2") 0
      (ChatRequest.mk (some (str "cough")) (some (str "notadatauri")))
      (ServerState.mk [] [])).1
      ∧ chatStatus (postChat (str "u1") (str "u2") 0
      (ChatRequest.mk (some (str "cough")) (some (str "notadatauri")))
      (ServerState.mk [] [])).1 < 500) := by decide

/-- C4 amended: missing required text is surfaced with a 400 and the short
message `symptomsText is required`, while a malformed image payload is
surfaced as the generic 500 `Internal server error`. -/
theorem chat_validation_status_amended (imgUuid sessUuid : Str) (now : Nat)
    (req : ChatRequest) (st : ServerState) :
    (jsFalsy req.symptomsText = true →
      (postChat imgUuid sessUuid now req st).1 =
        ChatResponse.badRequest (str "symptomsText is required")
      ∧ chatStatus (postChat imgUuid sessUuid now req st).1 = 400)
    ∧ (∀ s, jsFalsy req.symptomsText = false → req.base64Image = some s →
      s ≠ [] → matchImageDataUri s = none →
      (postChat imgUuid sessUuid now req st).1 =
        ChatResponse.serverError (str "Internal server error")
      ∧ chatStatus (postChat imgUuid sessUuid now req st).1 = 500) := by
  constructor
  · intro hf; simp [postChat, hf, chatStatus]
  · intro s hf himg hs hmal
    simp [postChat, hf, saveImageFS, himg, hs, hmal, chatStatus]

/-- Witness for the amended C4: a missing-text request gets the 400, a
malformed-image request gets the 500. -/
theorem chat_validation_status_amended_witness :
    ((postChat (str "u1") (str "u2") 0 (ChatRequest.mk none none)
        (ServerState.mk [] [])).1 =
      ChatResponse.badRequest (str "symptomsText is required")
      ∧ chatStatus (postChat (str "u1") (str "u2") 0 (ChatRequest.mk none none)
        (ServerState.mk [] [])).1 = 400)
    ∧ ((postChat (str "u1") (str "u2") 0
        (ChatRequest.mk (some (str "cough")) (some (str "bad")))
        (ServerState.mk [] [])).1 =
      ChatResponse.serverError (str "Internal server error")
      ∧ chatStatus (postChat (str "u1") (str "u2") 0
        (ChatRequest.mk (some (str "cough")) (some (str "bad")))
        (ServerState.mk [] [])).1 = 500) :=
  ⟨(chat_validation_status_amended (str "u1") (str "u2") 0 (ChatRequest.mk none none)
      (ServerState.mk [] [])).1 (by decide),
   (chat_validation_status_amended (str "u1") (str "u2") 0
      (ChatRequest.mk (some (str "cough")) (some (str "bad")))
      (ServerState.mk [] [])).2 (str "bad") (by decide) rfl (by decide) (by decide)⟩

/-- C5: a request whose body has no `symptomsText` field is answered 400
with the message `symptomsText is required`, and the state is unchanged:
no row stored, no file written. -/
theorem chat_missing_text_rejected (imgUuid sessUuid : Str) (now : Nat)
    (req : ChatRequest) (st : ServerState) (h : req.symptomsText = none) :
    postChat imgUuid sessUuid now req st =
      (ChatResponse.badRequest (str "symptomsText is required"), st)
    ∧ chatStatus (postChat imgUuid sessUuid now req st).1 = 400 := by
  have hf : jsFalsy req.symptomsText = true := by rw [h]; rfl
  exact ⟨by simp [postChat, hf], by simp [postChat, hf, chatStatus]⟩

/-- Witness for C5: a body with no text but a well-formed image is still
answered 400 and the (empty) state stays empty. -/
theorem chat_missing_text_rejected_witness :
    postChat (str "u1") (str "u2") 7
      (ChatRequest.mk none (some (str "data:image/png;base64,AAAA")))
      (ServerState.mk [] []) =
      (ChatResponse.badRequest (str "symptomsText is required"), ServerState.mk [] [])
    ∧ chatStatus (postChat (str "u1") (str "u2") 7
      (ChatRequest.mk none (some (str "data:image/png;base64,AAAA")))
      (ServerState.mk [] [])).1 = 400 :=
  chat_missing_text_rejected (str "u1") (str "u2") 7
    (ChatRequest.mk none (some (str "data:image/png;base64,AAAA")))
    (ServerState.mk [] []) rfl

/-- C6: a valid submission with no image is answered 200 with a null image
URL; the inserted row carries a null image path, and the uploads directory
is untouched. -/
theorem chat_no_image_no_file (imgUuid sessUuid : Str) (now : Nat) (t : Str)
    (st : ServerState) (ht : t ≠ []) :
    postChat imgUuid sessUuid now (ChatRequest.mk (some t) none) st =
      (ChatResponse.ok sessUuid t none (generateDummyAIResponse t) now,
       ServerState.mk
         (st.sessions ++
           [Session.mk sessUuid t none (generateDummyAIResponse t).possibleCauses
             (generateDummyAIResponse t).riskLevel
             (generateDummyAIResponse t).selfCareTips
             (generateDummyAIResponse t).doctorAdvice now])
         st.files) := by
  have hf : jsFalsy (some t) = false := by
    cases t with
    | nil => exact absurd rfl ht
    | cons c cs => rfl
  simp [postChat, hf, saveImageFS]

/-- Witness for C6 at a concrete imageless submission. -/
theorem chat_no_image_no_file_witness :
    postChat (str "u1") (str "u2") 9 (ChatRequest.mk (some (str "I have fever")) none)
      (ServerState.mk [] []) =
      (ChatResponse.ok (str "u2") (str "I have fever") none
        (generateDummyAIResponse (str "I have fever")) 9,
       ServerState.mk
         [Session.mk (str "u2") (str "I have fever") none
           (generateDummyAIResponse (str "I have fever")).possibleCauses
           (generateDummyAIResponse (str "I have fever")).riskLevel
           (generateDummyAIResponse (str "I have fever")).selfCareTips
           (generateDummyAIResponse (str "I have fever")).doctorAdvice 9]
         []) :=
  chat_no_image_no_file (str "u1") (str "u2") 9 (str "I have fever")
    (ServerState.mk [] []) (by decide)

/-- C7: a report request whose (truthy) image URL resolves to a file that
is not in the uploads directory is still answered 200 with a document that
carries the text placeholder `Symptom image not found.` and embeds no
image. -/
theorem pdf_missing_image_placeholder (req : PdfRequest) (files : List Str)
    (u : Str) (h1 : req.imageUrl = some u) (h2 : u ≠ [])
    (h3 : files.contains (stripHttpHost u) = false) :
    ∃ doc, postGeneratePdf req files = PdfResponse.ok doc
      ∧ pdfStatus (postGeneratePdf req files) = 200
      ∧ PdfItem.text (str "Symptom image not found.") ∈ doc
      ∧ ∀ p, PdfItem.image p ∉ doc := by
  have hmem : stripHttpHost u ∉ files := by simpa using h3
  refine ⟨buildPdfDoc req.symptomsText req.aiResponse req.imageUrl
    req.timestamp files, rfl, rfl, ?_, ?_⟩
  · simp [buildPdfDoc, imageSection, h1, h2, hmem]
  · intro p
    simp [buildPdfDoc, imageSection, h1, h2, hmem]

/-- Witness for C7: report for a session pointing at `/uploads/x.png` with
an empty uploads directory. -/
theorem pdf_missing_image_placeholder_witness :
    ∃ doc,
      postGeneratePdf
        (PdfRequest.mk (str "cough") defaultResponse (some (str "/uploads/x.png")) none)
        [] = PdfResponse.ok doc
      ∧ pdfStatus (postGeneratePdf
        (PdfRequest.mk (str "cough") defaultResponse (some (str "/uploads/x.png")) none)
        []) = 200
      ∧ PdfItem.text (str "Symptom image not found.") ∈ doc
      ∧ ∀ p, PdfItem.image p ∉ doc :=
  pdf_missing_image_placeholder
    (PdfRequest.mk (str "cough") defaultResponse (some (str "/uploads/x.png")) none)
    [] (str "/uploads/x.png") rfl (by decide) (by decide)

/-- C8: every request leaves the existing session rows exactly in place
(create-only lifecycle, nothing updated or deleted) and any rows it adds
have all four advice fields filled in together from one triage-lookup call
on the row's own symptom text. -/
theorem sessions_append_only_consistent (rq : Request) (st : ServerState) :
    ∃ newRows, (handle rq st).2.sessions = st.sessions ++ newRows
      ∧ newRows.all adviceConsistent = true := by
  cases rq with
  | pdf r => exact ⟨[], by simp [handle]⟩
  | chat imgUuid sessUuid now r =>
    by_cases hf : jsFalsy r.symptomsText
    · exact ⟨[], by simp [handle, postChat, hf]⟩
    · cases hsv : saveImageFS imgUuid r.base64Image st.files with
      | error e => exact ⟨[], by simp [handle, postChat, hf, hsv]⟩
      | ok p =>
        obtain ⟨imagePath, files'⟩ := p
        refine ⟨[Session.mk sessUuid (r.symptomsText.getD []) imagePath
          (generateDummyAIResponse (r.symptomsText.getD [])).possibleCauses
          (generateDummyAIResponse (r.symptomsText.getD [])).riskLevel
          (generateDummyAIResponse (r.symptomsText.getD [])).selfCareTips
          (generateDummyAIResponse (r.symptomsText.getD [])).doctorAdvice now], ?_, ?_⟩
        · simp [handle, postChat, hf, hsv]
        · simp [adviceConsistent]

/-- C9: an explicitly empty `symptomsText` is handled exactly like a
missing one — the truthiness test rejects both — with a 400 and no state
change. -/
theorem chat_empty_text_like_missing (imgUuid sessUuid : Str) (now : Nat)
    (img : Option Str) (st : ServerState) :
    postChat imgUuid sessUuid now (ChatRequest.mk (some []) img) st =
      (ChatResponse.badRequest (str "symptomsText is required"), st)
    ∧ postChat imgUuid sessUuid now (ChatRequest.mk (some []) img) st =
      postChat imgUuid sessUuid now (ChatRequest.mk none img) st := by
  exact ⟨rfl, rfl⟩

/-- C10: the image intake accepts exactly the data URIs
`data:image/<ext>;base64,<payload>` whose MIME subtype `<ext>` is a
nonempty run of word characters (so `data:text/plain;...` and
`data:image/svg+xml;...` are rejected as malformed), and for an accepted
input the stored filename's extension is that subtype. -/
theorem image_intake_mime_restriction :
    (∀ s ext payload, matchImageDataUri s = some (ext, payload) ↔
      (s = str "data:image/" ++ ext ++ str ";base64," ++ payload
        ∧ ext ≠ [] ∧ ext.all isWordChar = true
        ∧ payload ≠ [] ∧ payload.any isLineTerminator = false))
    ∧ (∀ uuid files s ext payload, matchImageDataUri s = some (ext, payload) →
      saveImageFS uuid (some s) files =
        Except.ok (some (str "/uploads/" ++ uuid ++ str "." ++ ext),
          (str "/uploads/" ++ uuid ++ str "." ++ ext) :: files)) := by
  refine ⟨matchImageDataUri_iff, ?_⟩
  intro uuid files s ext payload h
  have hpre : str "data:image/" = 'd' :: str "ata:image/" := rfl
  have hs : s ≠ [] := by
    obtain ⟨hshape, _⟩ := (matchImageDataUri_iff s ext payload).mp h
    rw [hshape, hpre]
    simp
  simp [saveImageFS, hs, h]

/-- Witness for C10: `data:image/png;base64,AAAA` is accepted with subtype
`png`, and saving it stores `/uploads/u1.png`. -/
theorem image_intake_mime_restriction_witness :
    matchImageDataUri (str "data:image/png;base64,AAAA") =
      some (str "png", str "AAAA")
    ∧ saveImageFS (str "u1") (some (str "data:image/png;base64,AAAA")) [] =
      Except.ok (some (str "/uploads/u1.png"), [str "/uploads/u1.png"]) :=
  ⟨(image_intake_mime_restriction.1 (str "data:image/png;base64,AAAA")
      (str "png") (str "AAAA")).mpr
      ⟨by decide, by decide, by decide, by decide, by decide⟩,
   image_intake_mime_restriction.2 (str "u1") [] (str "data:image/png;base64,AAAA")
      (str "png") (str "AAAA") (by decide)⟩
